import Mathlib

/-!
Shallow embedding of the reentrant callback-context layer of
`scipy/integrate/quadpack.h`, together with the `typical` test fixture of
`scipy/integrate/tests/testlib.c`.

Modelling choices:
* C doubles are modelled as real numbers; `double *` arrays are modelled by
  `List ℝ` (the contents the pointer gives access to); an out-of-bounds read
  (which is undefined behaviour in C) is modelled by `List.getD` with
  default 0.
* Nullable function pointers are `Option` of the corresponding Lean function
  type; `none` is the null pointer.
* The process-wide mutable globals of quadpack.h
  (`quadpack_python_function`, `quadpack_extra_arguments`,
  `quadpack_jmpbuf`, `quadpack_ctypes_function`, `globalargs`, `globalf`,
  `globalnargs`, `globalbasef`) are gathered into one `ProcState` record;
  each C function that mutates them is a Lean function that takes the state
  and returns the updated state together with its C return value and the
  updated caller-owned storage record.
* `jmp_buf` contents are opaque to the code (only `memcpy`d around), so they
  are modelled by an abstract token type `JmpBuf := ℕ`.
* `PyObject` is modelled only to the degree quadpack.h inspects it: a value
  is either a tuple of values or some other object; `PyTuple_Check` tests
  the former.  Reference counting (`Py_INCREF`/`Py_XDECREF`) manages memory
  only and is not modelled.  `PyTuple_New(0)` is modelled as always
  producing the empty tuple (its NULL return happens only on memory
  exhaustion).
* `NPY_SUCCEED` / `NPY_FAIL` are modelled as `true` / `false`.
-/

/-- A Python object, as far as quadpack.h inspects it: tuples are
distinguished (for `PyTuple_Check`), everything else is opaque. -/
inductive PyObject where
  | tuple (items : List Nat) : PyObject
  | other (id : Nat) : PyObject
deriving DecidableEq

/-- `PyTuple_Check`: true exactly on tuple objects. -/
def PyTuple_Check : PyObject → Bool
  | PyObject.tuple _ => true
  | PyObject.other _ => false

/-- `PyTuple_New(0)`: a fresh empty tuple. -/
def PyTuple_New0 : PyObject := PyObject.tuple []

/-- Opaque `jmp_buf` contents: only ever copied wholesale by `memcpy`. -/
abbrev JmpBuf : Type := Nat

/-- Type of the C function pointer `double (*)(int, double *)`: an n-ary
user function receiving the argument count and the argument array. -/
def MultiFun : Type := Nat → List ℝ → ℝ

/-- Type of the C function pointer `double (*)(double *)`: a function
receiving a pointer into a double array. -/
def BaseFun : Type := List ℝ → ℝ

/-- Type of the C function pointer `double (*)(double)`. -/
def CtypesFun : Type := ℝ → ℝ

/-- The process-wide mutable globals (static variables) of quadpack.h. -/
structure ProcState where
  quadpack_python_function : Option PyObject
  quadpack_extra_arguments : Option PyObject
  quadpack_jmpbuf : JmpBuf
  quadpack_ctypes_function : Option CtypesFun
  globalargs : List ℝ
  globalf : Option MultiFun
  globalnargs : Nat
  globalbasef : Option BaseFun
  /-- The Python per-thread error indicator (set by `PyErr_SetString`,
  queried by `PyErr_Occurred`, reset by `PyErr_Clear`). -/
  pyerr : Bool

/-- `QStorage`: caller-owned stack storage for re-entrancy of the
Python-function and ctypes-function contexts.  The C struct holds two
untyped `void *` slots; the payload type is a parameter here because
`quad_init_func` stores `PyObject *` values in them while
`init_ctypes_func` stores `double (*)(double)` values. -/
structure QStorage (α : Type) where
  global0 : α
  global1 : α
  jmp : JmpBuf
  arg : Option PyObject

/-- `ZStorage`: caller-owned stack storage for the multivariate context
(previous triple in the `*0` fields, newly activated triple in `*1`). -/
structure ZStorage where
  z_args0 : List ℝ
  z_nargs0 : Nat
  z_f0 : Option MultiFun
  z_args1 : List ℝ
  z_nargs1 : Nat
  z_f1 : Option MultiFun

/-- `YStorage`: caller-owned stack storage for the single-variable wrapper
context. -/
structure YStorage where
  y_func0 : Option BaseFun
  y_func1 : Option BaseFun

/-- The `_sp_cfuncptr_object` layout quadpack.h casts ctypes objects to:
all it reads is the stored function pointer `b_ptr`. -/
structure SpCFuncPtrObject where
  b_ptr : Option CtypesFun

/-- `get_ctypes_function_pointer`: read the function pointer out of a
ctypes function-pointer object. -/
def get_ctypes_function_pointer (obj : SpCFuncPtrObject) : Option CtypesFun :=
  obj.b_ptr

/-- `quad_init_func(store, fun, arg)`: snapshot the Python-function
context into `store`, normalize `arg` (NULL becomes a fresh empty tuple),
fail if the result is not a tuple, otherwise activate `fun`/`arg`.
Returns (C return value, updated store, updated globals). -/
def quad_init_func (store : QStorage (Option PyObject)) (f arg : Option PyObject)
    (s : ProcState) : Bool × QStorage (Option PyObject) × ProcState :=
  let store := { store with
    global0 := s.quadpack_python_function
    global1 := s.quadpack_extra_arguments
    jmp := s.quadpack_jmpbuf
    arg := arg }
  let store := match store.arg with
    | none => { store with arg := some PyTuple_New0 }
    | some _ => store
  if PyTuple_Check (store.arg.getD PyTuple_New0) then
    (true, store, { s with
      quadpack_python_function := f
      quadpack_extra_arguments := store.arg })
  else
    (false, store, { s with pyerr := true })

/-- `quad_restore_func(store, ierr)`: unconditionally write the snapshot in
`store` back into the Python-function globals; if `ierr` was passed
(non-NULL) and a Python error is pending, report 80 through it and clear
the error.  Returns (updated globals, value behind `ierr` afterwards). -/
def quad_restore_func (store : QStorage (Option PyObject)) (ierr : Option Int)
    (s : ProcState) : ProcState × Option Int :=
  let s := { s with
    quadpack_python_function := store.global0
    quadpack_extra_arguments := store.global1
    quadpack_jmpbuf := store.jmp }
  match ierr with
  | none => (s, none)
  | some v => if s.pyerr then ({ s with pyerr := false }, some 80) else (s, some v)

/-- `init_ctypes_func(store, fun)`: snapshot the active ctypes function
into `store.global0`, extract the new pointer into `store.global1`, fail
if it is null, otherwise activate it. -/
def init_ctypes_func (store : QStorage (Option CtypesFun)) (f : SpCFuncPtrObject)
    (s : ProcState) : Bool × QStorage (Option CtypesFun) × ProcState :=
  let store := { store with
    global0 := s.quadpack_ctypes_function
    global1 := get_ctypes_function_pointer f }
  if store.global1.isNone then
    (false, store, s)
  else
    (true, store, { s with quadpack_ctypes_function := store.global1 })

/-- `restore_ctypes_func(store)`: unconditionally write the snapshot back. -/
def restore_ctypes_func (store : QStorage (Option CtypesFun)) (s : ProcState) :
    ProcState :=
  { s with quadpack_ctypes_function := store.global0 }

/-- `init_c_multivariate(store, f, n, args)`: snapshot the active
multivariate triple into the `*0` half of `store`, record the new triple
in the `*1` half, fail if `f` is null, otherwise activate the new triple. -/
def init_c_multivariate (store : ZStorage) (f : Option MultiFun) (n : Nat)
    (args : List ℝ) (s : ProcState) : Bool × ZStorage × ProcState :=
  let store := { store with
    z_f0 := s.globalf
    z_nargs0 := s.globalnargs
    z_args0 := s.globalargs }
  let store := { store with
    z_f1 := f
    z_nargs1 := n
    z_args1 := args }
  if store.z_f1.isNone then
    (false, store, s)
  else
    (true, store, { s with
      globalf := store.z_f1
      globalnargs := store.z_nargs1
      globalargs := store.z_args1 })

/-- The fresh array `call_c_multivariate` builds on each call: element 0 is
`x`, elements `1..n` are copied from the active parameter array
(`evalArray[i] = globalargs[i-1]` for `i = 1..n`). -/
def evalArray (x : ℝ) (n : Nat) (args : List ℝ) : List ℝ :=
  x :: (List.range n).map (fun i => args.getD i 0)

/-- `call_c_multivariate(&x)`: build the length-`globalnargs + 1` array and
invoke the active n-ary function on it.  Calling it with a null `globalf`
is undefined behaviour in C (the code must be initialized first); that
case is modelled by a junk default function. -/
def call_c_multivariate (x : ℝ) (s : ProcState) : ℝ :=
  (s.globalf.getD (fun _ _ => 0)) s.globalnargs (evalArray x s.globalnargs s.globalargs)

/-- `restore_c_multivariate(store)`: unconditionally write the `*0` half of
`store` back into the multivariate globals. -/
def restore_c_multivariate (store : ZStorage) (s : ProcState) : ProcState :=
  { s with
    globalf := store.z_f0
    globalnargs := store.z_nargs0
    globalargs := store.z_args0 }

/-- `funcwrapper_init(store, f)`: snapshot the active base function into
`store.y_func0`, record `f` in `store.y_func1` and activate it (no failure
path). -/
def funcwrapper_init (store : YStorage) (f : Option BaseFun) (s : ProcState) :
    YStorage × ProcState :=
  let store := { store with
    y_func0 := s.globalbasef
    y_func1 := f }
  (store, { s with globalbasef := store.y_func1 })

/-- `funcwrapper(nargs, args)`: evaluate the active base function on the
argument array, ignoring `nargs`.  A null `globalbasef` is undefined
behaviour in C, modelled by a junk default. -/
def funcwrapper (nargs : Nat) (args : List ℝ) (s : ProcState) : ℝ :=
  (s.globalbasef.getD (fun _ => 0)) args

/-- `funcwrapper_restore(store)`: restore the base function after use. -/
def funcwrapper_restore (store : YStorage) (s : ProcState) : ProcState :=
  { s with globalbasef := store.y_func0 }

/-- The embedding of a C function `double f(double *x)` that reads only
`*x` (a true scalar function seen through the pointer calling convention):
it factors through the first element of the array its pointer argument
gives access to. -/
def scalarFun (g : ℝ → ℝ) : BaseFun :=
  fun args => g (args.headD 0)

/-- The constant `PI` of `tests/testlib.c`. -/
def testlibPI : ℝ := 3.14159265358979323846264338327950288419716939937510582

/-- The `typical` test fixture of `tests/testlib.c`:
`cos(args[1]*args[0] - args[2]*sin(args[0])) / PI`. -/
noncomputable def typical : MultiFun :=
  fun _n args =>
    Real.cos (args.getD 1 0 * args.getD 0 0 - args.getD 2 0 * Real.sin (args.getD 0 0))
      / testlibPI

/-- An arbitrary `ZStorage` record as allocated (uninitialized) on the C
call stack; `init_c_multivariate` overwrites every field before it is
read. -/
def emptyZ : ZStorage := ⟨[], 0, none, [], 0, none⟩

/-- The quiescent initial process state: all static pointers are null and
the counters zero, as C zero-initializes file-scope statics at load. -/
def initState : ProcState := ⟨none, none, 0, none, [], none, 0, none, false⟩

/-- A well-nested client program against the multivariate context, in the
stack discipline the spec prescribes: evaluations, sequencing, and an
install/restore pair protecting an inner program (the pair shares one
`ZStorage` record, and the restore runs on every exit path, also when the
install failed). -/
inductive MultiProg where
  | eval (x : ℝ) : MultiProg
  | seq (p q : MultiProg) : MultiProg
  | withCtx (f : Option MultiFun) (n : Nat) (args : List ℝ) (inner : MultiProg) : MultiProg

/-- Run a well-nested program: `eval x` calls `call_c_multivariate`
(which reads but never writes the globals), `withCtx` performs
`init_c_multivariate`, runs the body when the install succeeded, and
always performs `restore_c_multivariate` with the same record. -/
def runMulti : MultiProg → ProcState → ProcState
  | MultiProg.eval x, s =>
      let _y := call_c_multivariate x s
      s
  | MultiProg.seq p q, s => runMulti q (runMulti p s)
  | MultiProg.withCtx f n args inner, s =>
      let r := init_c_multivariate emptyZ f n args s
      let s1 := if r.1 then runMulti inner r.2.2 else r.2.2
      restore_c_multivariate r.2.1 s1

/-- Copying the first `p.length` array elements with the
`call_c_multivariate` loop reproduces `p`. -/
theorem range_map_getD (p : List ℝ) :
    List.map (fun i => p[i]?.getD 0) (List.range p.length) = p := by
  apply List.ext_getElem
  · simp
  · intro i h1 h2
    simp [List.getElem?_eq_getElem, h2]

/-- Any well-nested multivariate program leaves the process state exactly
as it found it. -/
theorem runMulti_id (q : MultiProg) : ∀ s : ProcState, runMulti q s = s := by
  induction q with
  | eval x => intro s; rfl
  | seq p q ihp ihq => intro s; simp [runMulti, ihp, ihq]
  | withCtx f n args inner ih =>
      intro s
      cases f with
      | none => rfl
      | some f0 => simp [runMulti, init_c_multivariate, restore_c_multivariate, ih]

/-- C1: with an active multivariate context (f, n, p) where p has length n,
`call_c_multivariate` at x invokes f on the array `x :: p` (x first, then
the parameters, length n + 1) and passes the result through unchanged. -/
theorem call_c_multivariate_eval_at (f : MultiFun) (n : Nat) (p : List ℝ) (x : ℝ)
    (s : ProcState) (hf : s.globalf = some f) (hn : s.globalnargs = n)
    (hp : s.globalargs = p) (hlen : p.length = n) :
    call_c_multivariate x s = f n (x :: p) := by
  subst hlen
  simp [call_c_multivariate, evalArray, hf, hn, hp, range_map_getD]

/-- Witness for C1: a concrete active context of arity 2 with parameters
[2, 3], evaluated at 1. -/
theorem call_c_multivariate_eval_at_witness :
    call_c_multivariate 1
        ⟨none, none, 0, none, [2, 3], some (fun _k a => a.headD 0 + a.getD 1 0), 2, none, false⟩
      = (fun (_k : Nat) (a : List ℝ) => a.headD 0 + a.getD 1 0) 2 (1 :: [2, 3]) :=
  call_c_multivariate_eval_at (fun _k a => a.headD 0 + a.getD 1 0) 2 [2, 3] 1 _ rfl rfl rfl rfl

/-- C2: stack composition of nested install/restore pairs.  With pair B
installed strictly inside the region of pair A: (1) B's record's previous
half is exactly A's new values; (2) after B's restore (run after any
well-nested inner program) the process-wide state equals the state A's
install produced, whose active triple is A's new values; (3) any
well-nested program — arbitrary nesting depth, arbitrarily many
evaluations at any depth — returns the process-wide state to its exact
pre-program value after the outermost restore. -/
theorem nested_install_restore_stack (s0 : ProcState) (fA fB : MultiFun)
    (nA nB : Nat) (pA pB : List ℝ) (storeA storeB : ZStorage) (prog : MultiProg) :
    let rA := init_c_multivariate storeA (some fA) nA pA s0
    let rB := init_c_multivariate storeB (some fB) nB pB rA.2.2
    (rB.2.1.z_f0 = some fA ∧ rB.2.1.z_nargs0 = nA ∧ rB.2.1.z_args0 = pA) ∧
    (restore_c_multivariate rB.2.1 (runMulti prog rB.2.2) = rA.2.2 ∧
      rA.2.2.globalf = some fA ∧ rA.2.2.globalnargs = nA ∧ rA.2.2.globalargs = pA) ∧
    (∀ (q : MultiProg) (s : ProcState), runMulti q s = s) := by
  intro rA rB
  refine ⟨⟨rfl, rfl, rfl⟩, ⟨?_, rfl, rfl, rfl⟩, fun q s => runMulti_id q s⟩
  rw [runMulti_id]
  rfl

/-- C3 counterexample: `quad_init_func` performs no null check on its
function argument.  Called with a null function and an empty-tuple
argument on a state whose active Python function is non-null, it returns
NPY_SUCCEED (not failure) and overwrites the active Python function with
null (the state is mutated). -/
theorem quad_init_func_accepts_null_function :
    (quad_init_func ⟨none, none, 0, none⟩ none (some (PyObject.tuple []))
        ⟨some (PyObject.other 1), none, 0, none, [], none, 0, none, false⟩).1 = true ∧
    (quad_init_func ⟨none, none, 0, none⟩ none (some (PyObject.tuple []))
        ⟨some (PyObject.other 1), none, 0, none, [], none, 0, none, false⟩).2.2.quadpack_python_function
      = none :=
  ⟨rfl, rfl⟩

/-- C3 amended: for the two installs that do check their function pointer
— `init_c_multivariate` and `init_ctypes_func` — a null new function makes
the install return failure with the process-wide state left completely
unchanged.  (`quad_init_func` does not null-check its function argument.) -/
theorem null_function_install_fails (storeZ : ZStorage) (n : Nat) (args : List ℝ)
    (storeQ : QStorage (Option CtypesFun)) (s : ProcState) :
    ((init_c_multivariate storeZ none n args s).1 = false ∧
      (init_c_multivariate storeZ none n args s).2.2 = s) ∧
    ((init_ctypes_func storeQ ⟨none⟩ s).1 = false ∧
      (init_ctypes_func storeQ ⟨none⟩ s).2.2 = s) :=
  ⟨⟨rfl, rfl⟩, ⟨rfl, rfl⟩⟩

/-- C4: on every successful install, the record's previous half is an
exact copy of the process-wide active state taken before anything was
overwritten, and the process-wide state on return equals the record's new
half (for `quad_init_func` the new half is the function argument together
with the normalized extra-arguments object saved in the record). -/
theorem install_copy_before_overwrite :
    (∀ (store : ZStorage) (f : Option MultiFun) (n : Nat) (args : List ℝ) (s : ProcState),
      (init_c_multivariate store f n args s).1 = true →
      ((init_c_multivariate store f n args s).2.1.z_f0 = s.globalf ∧
        (init_c_multivariate store f n args s).2.1.z_nargs0 = s.globalnargs ∧
        (init_c_multivariate store f n args s).2.1.z_args0 = s.globalargs) ∧
      ((init_c_multivariate store f n args s).2.2.globalf
          = (init_c_multivariate store f n args s).2.1.z_f1 ∧
        (init_c_multivariate store f n args s).2.2.globalnargs
          = (init_c_multivariate store f n args s).2.1.z_nargs1 ∧
        (init_c_multivariate store f n args s).2.2.globalargs
          = (init_c_multivariate store f n args s).2.1.z_args1)) ∧
    (∀ (store : QStorage (Option PyObject)) (f arg : Option PyObject) (s : ProcState),
      (quad_init_func store f arg s).1 = true →
      ((quad_init_func store f arg s).2.1.global0 = s.quadpack_python_function ∧
        (quad_init_func store f arg s).2.1.global1 = s.quadpack_extra_arguments ∧
        (quad_init_func store f arg s).2.1.jmp = s.quadpack_jmpbuf) ∧
      ((quad_init_func store f arg s).2.2.quadpack_python_function = f ∧
        (quad_init_func store f arg s).2.2.quadpack_extra_arguments
          = (quad_init_func store f arg s).2.1.arg)) := by
  constructor
  · intro store f n args s h
    cases f with
    | none => simp [init_c_multivariate] at h
    | some f0 => exact ⟨⟨rfl, rfl, rfl⟩, rfl, rfl, rfl⟩
  · intro store f arg s h
    cases arg with
    | none => exact ⟨⟨rfl, rfl, rfl⟩, rfl, rfl⟩
    | some o =>
        cases o with
        | tuple items => exact ⟨⟨rfl, rfl, rfl⟩, rfl, rfl⟩
        | other i => exact Bool.noConfusion h

/-- Witness for C4: both installs applied at concrete inputs on which they
succeed. -/
theorem install_copy_before_overwrite_witness :
    (((init_c_multivariate emptyZ (some (fun _k _a => 0)) 1 [4] initState).2.1.z_f0
        = initState.globalf ∧
      (init_c_multivariate emptyZ (some (fun _k _a => 0)) 1 [4] initState).2.1.z_nargs0
        = initState.globalnargs ∧
      (init_c_multivariate emptyZ (some (fun _k _a => 0)) 1 [4] initState).2.1.z_args0
        = initState.globalargs) ∧
     ((init_c_multivariate emptyZ (some (fun _k _a => 0)) 1 [4] initState).2.2.globalf
        = (init_c_multivariate emptyZ (some (fun _k _a => 0)) 1 [4] initState).2.1.z_f1 ∧
      (init_c_multivariate emptyZ (some (fun _k _a => 0)) 1 [4] initState).2.2.globalnargs
        = (init_c_multivariate emptyZ (some (fun _k _a => 0)) 1 [4] initState).2.1.z_nargs1 ∧
      (init_c_multivariate emptyZ (some (fun _k _a => 0)) 1 [4] initState).2.2.globalargs
        = (init_c_multivariate emptyZ (some (fun _k _a => 0)) 1 [4] initState).2.1.z_args1)) ∧
    (((quad_init_func ⟨none, none, 0, none⟩ (some (PyObject.other 2)) none initState).2.1.global0
        = initState.quadpack_python_function ∧
      (quad_init_func ⟨none, none, 0, none⟩ (some (PyObject.other 2)) none initState).2.1.global1
        = initState.quadpack_extra_arguments ∧
      (quad_init_func ⟨none, none, 0, none⟩ (some (PyObject.other 2)) none initState).2.1.jmp
        = initState.quadpack_jmpbuf) ∧
     ((quad_init_func ⟨none, none, 0, none⟩ (some (PyObject.other 2)) none initState).2.2.quadpack_python_function
        = some (PyObject.other 2) ∧
      (quad_init_func ⟨none, none, 0, none⟩ (some (PyObject.other 2)) none initState).2.2.quadpack_extra_arguments
        = (quad_init_func ⟨none, none, 0, none⟩ (some (PyObject.other 2)) none initState).2.1.arg)) :=
  ⟨install_copy_before_overwrite.1 emptyZ (some (fun _k _a => 0)) 1 [4] initState rfl,
   install_copy_before_overwrite.2 ⟨none, none, 0, none⟩ (some (PyObject.other 2)) none initState rfl⟩

/-- C5: every restore unconditionally writes the record's previous half
into the process-wide active state, whatever that state held when restore
was called, and has no failure path. -/
theorem restore_writes_previous_unconditionally :
    (∀ (store : ZStorage) (s : ProcState),
      (restore_c_multivariate store s).globalf = store.z_f0 ∧
      (restore_c_multivariate store s).globalnargs = store.z_nargs0 ∧
      (restore_c_multivariate store s).globalargs = store.z_args0) ∧
    (∀ (store : QStorage (Option PyObject)) (ierr : Option Int) (s : ProcState),
      (quad_restore_func store ierr s).1.quadpack_python_function = store.global0 ∧
      (quad_restore_func store ierr s).1.quadpack_extra_arguments = store.global1 ∧
      (quad_restore_func store ierr s).1.quadpack_jmpbuf = store.jmp) ∧
    (∀ (store : QStorage (Option CtypesFun)) (s : ProcState),
      (restore_ctypes_func store s).quadpack_ctypes_function = store.global0) ∧
    (∀ (store : YStorage) (s : ProcState),
      (funcwrapper_restore store s).globalbasef = store.y_func0) := by
  refine ⟨fun store s => ⟨rfl, rfl, rfl⟩, fun store ierr s => ?_,
    fun store s => rfl, fun store s => rfl⟩
  cases ierr with
  | none => exact ⟨rfl, rfl, rfl⟩
  | some v => cases hsp : s.pyerr <;> simp [quad_restore_func, hsp]

/-- C6: arity 0 with a non-null function is accepted by
`init_c_multivariate`, and in the resulting context the constructed
evaluation array is exactly the one-element array [x], so the evaluation
result is f applied to (0, [x]) with no parameter array element read. -/
theorem arity_zero_accepted (store : ZStorage) (f : MultiFun) (args : List ℝ)
    (s : ProcState) (x : ℝ) :
    (init_c_multivariate store (some f) 0 args s).1 = true ∧
    evalArray x (init_c_multivariate store (some f) 0 args s).2.2.globalnargs
        (init_c_multivariate store (some f) 0 args s).2.2.globalargs = [x] ∧
    call_c_multivariate x (init_c_multivariate store (some f) 0 args s).2.2 = f 0 [x] :=
  ⟨rfl, rfl, rfl⟩

/-- C7: when the active base function is a scalar C function (one that
reads only the first element its pointer argument gives access to),
`funcwrapper` returns that scalar function applied to args[0]; the result
depends neither on the arity argument nor on args[1..], as the right-hand
side mentions only the scalar function and the head of args. -/
theorem funcwrapper_scalar_eval (g : ℝ → ℝ) (n : Nat) (args : List ℝ)
    (s : ProcState) (h : s.globalbasef = some (scalarFun g)) :
    funcwrapper n args s = g (args.headD 0) := by
  simp [funcwrapper, h, scalarFun]

/-- Witness for C7: a concrete active scalar function evaluated through
the wrapper with arity 3 and a two-element argument array. -/
theorem funcwrapper_scalar_eval_witness :
    funcwrapper 3 [5, 7]
        ⟨none, none, 0, none, [], none, 0, some (scalarFun (fun t => t + 1)), false⟩
      = (fun (t : ℝ) => t + 1) ([(5 : ℝ), 7].headD 0) :=
  funcwrapper_scalar_eval (fun t => t + 1) 3 [5, 7] _ rfl

/-- C9: a failed `init_c_multivariate` (null function pointer) has already
snapshotted the pre-call multivariate triple into the record, so a later
`restore_c_multivariate` with that record — from any intermediate state —
reinstates exactly the pre-install triple. -/
theorem failed_install_still_snapshots (store : ZStorage) (n : Nat)
    (args : List ℝ) (s0 sMid : ProcState) :
    (init_c_multivariate store none n args s0).1 = false ∧
    (restore_c_multivariate (init_c_multivariate store none n args s0).2.1 sMid).globalf
      = s0.globalf ∧
    (restore_c_multivariate (init_c_multivariate store none n args s0).2.1 sMid).globalnargs
      = s0.globalnargs ∧
    (restore_c_multivariate (init_c_multivariate store none n args s0).2.1 sMid).globalargs
      = s0.globalargs :=
  ⟨rfl, rfl, rfl, rfl⟩

/-- C10: `quad_init_func` normalizes an absent extra-arguments object to a
fresh empty tuple; every successful call leaves a non-null tuple in the
extra-arguments slot; and a non-null non-tuple argument makes it fail
without touching the active Python-function, extra-arguments, or
jump-buffer globals. -/
theorem quad_init_func_arg_normalization :
    (∀ (store : QStorage (Option PyObject)) (f : Option PyObject) (s : ProcState),
      (quad_init_func store f none s).1 = true ∧
      (quad_init_func store f none s).2.2.quadpack_extra_arguments
        = some (PyObject.tuple [])) ∧
    (∀ (store : QStorage (Option PyObject)) (f arg : Option PyObject) (s : ProcState),
      (quad_init_func store f arg s).1 = true →
      ∃ items, (quad_init_func store f arg s).2.2.quadpack_extra_arguments
        = some (PyObject.tuple items)) ∧
    (∀ (store : QStorage (Option PyObject)) (f : Option PyObject) (o : PyObject)
        (s : ProcState), PyTuple_Check o = false →
      (quad_init_func store f (some o) s).1 = false ∧
      (quad_init_func store f (some o) s).2.2.quadpack_python_function
        = s.quadpack_python_function ∧
      (quad_init_func store f (some o) s).2.2.quadpack_extra_arguments
        = s.quadpack_extra_arguments ∧
      (quad_init_func store f (some o) s).2.2.quadpack_jmpbuf = s.quadpack_jmpbuf) := by
  refine ⟨fun store f s => ⟨rfl, rfl⟩, fun store f arg s h => ?_, fun store f o s h => ?_⟩
  · cases arg with
    | none => exact ⟨[], rfl⟩
    | some o =>
        cases o with
        | tuple items => exact ⟨items, rfl⟩
        | other i => exact Bool.noConfusion h
  · simp [quad_init_func, h]

/-- Witness for C10: the tuple-success case at a concrete one-element
tuple and the non-tuple failure case at a concrete non-tuple object. -/
theorem quad_init_func_arg_normalization_witness :
    (∃ items, (quad_init_func ⟨none, none, 0, none⟩ none (some (PyObject.tuple [3]))
        initState).2.2.quadpack_extra_arguments = some (PyObject.tuple items)) ∧
    ((quad_init_func ⟨none, none, 0, none⟩ none (some (PyObject.other 7)) initState).1 = false ∧
      (quad_init_func ⟨none, none, 0, none⟩ none (some (PyObject.other 7))
        initState).2.2.quadpack_python_function = initState.quadpack_python_function ∧
      (quad_init_func ⟨none, none, 0, none⟩ none (some (PyObject.other 7))
        initState).2.2.quadpack_extra_arguments = initState.quadpack_extra_arguments ∧
      (quad_init_func ⟨none, none, 0, none⟩ none (some (PyObject.other 7))
        initState).2.2.quadpack_jmpbuf = initState.quadpack_jmpbuf) :=
  ⟨quad_init_func_arg_normalization.2.1 ⟨none, none, 0, none⟩ none (some (PyObject.tuple [3]))
      initState rfl,
   quad_init_func_arg_normalization.2.2 ⟨none, none, 0, none⟩ none (PyObject.other 7)
      initState rfl⟩

/-- The process state after activating the `typical` fixture with arity 2
and parameters [3.0, 1.0] on the quiescent initial state. -/
noncomputable def typicalState : ProcState :=
  (init_c_multivariate emptyZ (some typical) 2 [3.0, 1.0] initState).2.2

/-- C8 counterexample: the `typical` test fixture divides by PI, so after
activating it with arity 2 and parameters [3.0, 1.0], evaluating at 0.5
does not return cos(3.0*0.5 - 1.0*sin(0.5)) (it returns that value divided
by PI, and the two differ). -/
theorem typical_scenario_counterexample :
    call_c_multivariate 0.5 typicalState
      ≠ Real.cos (3.0 * 0.5 - 1.0 * Real.sin 0.5) := by
  have hval : call_c_multivariate 0.5 typicalState
      = Real.cos (3.0 * 0.5 - 1.0 * Real.sin 0.5) / testlibPI := rfl
  rw [hval]
  have hc : 0 < Real.cos (3.0 * 0.5 - 1.0 * Real.sin 0.5) := by
    apply Real.cos_pos_of_mem_Ioo
    constructor
    · have h1 := Real.sin_le_one (0.5 : ℝ)
      have h2 := Real.pi_pos
      norm_num
      nlinarith
    · have h1 : 0 < Real.sin 0.5 :=
        Real.sin_pos_of_pos_of_lt_pi (by norm_num) (by nlinarith [Real.pi_gt_three])
      have h2 := Real.pi_gt_three
      norm_num
      nlinarith
  have hPI : (1 : ℝ) < testlibPI := by norm_num [testlibPI]
  intro h
  rw [div_eq_iff (by norm_num [testlibPI])] at h
  nlinarith [mul_pos hc (sub_pos.mpr hPI)]

/-- C8 amended: after activating the `typical` fixture (which divides by
its PI constant) with arity 2 and parameters [3.0, 1.0], evaluating at 0.5
passes exactly the array [0.5, 3.0, 1.0] to the fixture and returns
cos(3.0*0.5 - 1.0*sin(0.5)) / PI. -/
theorem typical_scenario :
    evalArray 0.5 typicalState.globalnargs typicalState.globalargs = [0.5, 3.0, 1.0] ∧
    call_c_multivariate 0.5 typicalState
      = Real.cos (3.0 * 0.5 - 1.0 * Real.sin 0.5) / testlibPI :=
  ⟨rfl, rfl⟩
